import Mathlib

/-!
Shallow embedding of the portfolio page script `js/main.js` and proofs about
its data pipeline: the GitHub fetch/render flow, the language filter, the
statistics aggregator, the project-card renderer and the resume-upload
validator.  DOM reads and writes are modelled as explicit state values and
returned strings; the two network calls are modelled as `Except` results
passed to the joint fetch function.
-/

namespace Portfolio

set_option maxRecDepth 200000

/-- JS array/string membership test used below: is `pat` a prefix of `l`
(character by character, as `String.prototype.startsWith` would compare)? -/
def charListPrefixOf : List Char → List Char → Bool
  | [], _ => true
  | _ :: _, [] => false
  | c :: cs, d :: ds => c == d && charListPrefixOf cs ds

/-- Is `pat` a contiguous infix of the second list?  Scans every suffix. -/
def charListSub (pat : List Char) : List Char → Bool
  | [] => charListPrefixOf pat []
  | d :: rest => charListPrefixOf pat (d :: rest) || charListSub pat rest

/-- JS `s.includes(pat)`: substring containment. -/
def strIncludes (s pat : String) : Bool :=
  charListSub pat.toList s.toList

/-- JS `s.toLowerCase()`, modelled with per-character (ASCII) case folding. -/
def strToLower (s : String) : String :=
  ⟨s.data.map Char.toLower⟩

/-- One character of the DOM text-to-HTML serialization: setting
`div.textContent` and reading `div.innerHTML` encodes the three
markup-significant characters and leaves everything else alone. -/
def escapeChar (c : Char) : String :=
  if c == '&' then "&amp;"
  else if c == '<' then "&lt;"
  else if c == '>' then "&gt;"
  else String.singleton c

/-- `escapeHtml` from `js/main.js` (lines 292-296): the
`div.textContent = text; return div.innerHTML` idiom, i.e. the text
serialized with `&`, `<`, `>` encoded. -/
def escapeHtml (text : String) : String :=
  String.join (text.toList.map escapeChar)

/-- JS `s || d` where `s` is a string-or-null field: `null`/`undefined`
and the empty string are falsy, every other string is returned as is. -/
def jsOr : Option String → String → String
  | none, d => d
  | some s, d => if s == "" then d else s

/-- JS truthiness of a string-or-null field. -/
def jsTruthy : Option String → Bool
  | none => false
  | some s => !(s == "")

/-- The `CONFIG` object (lines 7-12). -/
structure Config where
  githubUsername : String
  apiBaseUrl : String
  maxProjects : Nat
  animationDelay : Nat
deriving DecidableEq

def CONFIG : Config :=
  { githubUsername := "ravingodbole"
    apiBaseUrl := "https://api.github.com"
    maxProjects := 12
    animationDelay := 100 }

/-- A GitHub repository record, as the fields of the API response the
script reads.  `description`, `language` and `homepage` may be `null` in
the JSON, hence `Option`. -/
structure Repo where
  name : String
  description : Option String
  language : Option String
  stargazers_count : Nat
  forks_count : Nat
  html_url : String
  homepage : Option String
deriving DecidableEq

/-- The GitHub user-profile record fields the script reads. -/
structure UserData where
  public_repos : Nat
  followers : Nat
deriving DecidableEq

/-- The mutable `state` object (lines 15-19). -/
structure State where
  allProjects : List Repo
  currentFilter : String
  isLoading : Bool
deriving DecidableEq

/-- The stats computed by `updateStats` (lines 93-105) before they are
handed to the count-up animation. -/
structure Stats where
  repos : Nat
  followers : Nat
  stars : Nat
  forks : Nat
deriving DecidableEq

/-- `updateStats` (lines 93-105): reduces over the full repository
sequence with `(sum, repo) => sum + repo.stargazers_count` (resp.
`forks_count`), starting from 0. -/
def updateStats (userData : UserData) (reposData : List Repo) : Stats :=
  { repos := userData.public_repos
    followers := userData.followers
    stars := reposData.foldl (fun sum repo => sum + repo.stargazers_count) 0
    forks := reposData.foldl (fun sum repo => sum + repo.forks_count) 0 }

/-- The `${language !== 'Unknown' ? ... : ''}` segment of the card
template (line 186), applied to the already-defaulted language string. -/
def languageBadge (language : String) : String :=
  if language != "Unknown" then
    "<span class=\"tech-badge\">" ++ escapeHtml language ++ "</span>"
  else ""

/-- The `${stars > 0 ? ... : ''}` segment of the card template (line 187). -/
def starsBadge (stars : Nat) : String :=
  if stars > 0 then
    "<span class=\"tech-badge\" aria-label=\"" ++ toString stars ++ " stars\">⭐ "
      ++ toString stars ++ "</span>"
  else ""

/-- The `${forks > 0 ? ... : ''}` segment of the card template (line 188). -/
def forksBadge (forks : Nat) : String :=
  if forks > 0 then
    "<span class=\"tech-badge\" aria-label=\"" ++ toString forks ++ " forks\">🔀 "
      ++ toString forks ++ "</span>"
  else ""

/-- The `${project.homepage ? ... : ''}` segment of the card template
(lines 199-208).  Note that `project.name` is interpolated into the
`aria-label` attribute without `escapeHtml`. -/
def homepageLink (project : Repo) : String :=
  if jsTruthy project.homepage then
    "\n                        <a href=\"" ++ jsOr project.homepage ("")
      ++ "\" \n                           target=\"_blank\" \n                           rel=\"noopener noreferrer\" \n                           class=\"project-link\" \n                           aria-label=\"View "
      ++ project.name
      ++ " live demo\"\n                           title=\"Live Demo\">\n                            🚀\n                        </a>\n                    "
  else ""

/-- `createProjectCard` (lines 166-213): the template literal producing
one card's HTML.  `escapeHtml` is applied to the title text, the
description and the language badge; `project.name` is interpolated raw
into both `aria-label` attributes, and the lowercased language raw into
`data-language`. -/
def createProjectCard (project : Repo) (index : Nat) : String :=
  let language := jsOr project.language ("Unknown")
  let description := jsOr project.description ("No description available")
  let stars := project.stargazers_count
  let forks := project.forks_count
  "\n        <article class=\"project-card\" \n                 data-language=\""
    ++ strToLower language
    ++ "\" \n                 style=\"animation-delay: "
    ++ toString (index * CONFIG.animationDelay)
    ++ "ms\"\n                 role=\"listitem\">\n            <div class=\"project-header\">\n                <h3 class=\"project-title\">\n                    <span aria-hidden=\"true\">📦</span>\n                    <span>"
    ++ escapeHtml project.name
    ++ "</span>\n                </h3>\n                <p class=\"project-description\">"
    ++ escapeHtml description
    ++ "</p>\n            </div>\n            <div class=\"project-footer\">\n                <div class=\"project-tech\">\n                    "
    ++ languageBadge language
    ++ "\n                    "
    ++ starsBadge stars
    ++ "\n                    "
    ++ forksBadge forks
    ++ "\n                </div>\n                <div class=\"project-links\">\n                    <a href=\""
    ++ project.html_url
    ++ "\" \n                       target=\"_blank\" \n                       rel=\"noopener noreferrer\" \n                       class=\"project-link\" \n                       aria-label=\"View "
    ++ project.name
    ++ " on GitHub\"\n                       title=\"View on GitHub\">\n                        🔗\n                    </a>\n                    "
    ++ homepageLink project
    ++ "\n                </div>\n            </div>\n        </article>\n    "

/-- The placeholder written when `displayProjects` receives an empty list
(line 145). -/
def noProjectsHtml : String :=
  "<p class=\"no-projects\">No projects found matching your criteria.</p>"

/-- The card strings produced by `displayProjects` (lines 150-154):
`projects.slice(0, CONFIG.maxProjects).map((project, index) =>
createProjectCard(project, index))`. -/
def displayedCards (projects : List Repo) : List String :=
  (projects.take CONFIG.maxProjects).enum.map
    (fun ip => createProjectCard ip.2 ip.1)

/-- `displayProjects` (lines 140-158): the HTML written into the
projects container — the placeholder for an empty list, otherwise the
capped card sequence joined with `''`. -/
def displayProjects (projects : List Repo) : String :=
  if projects.length == 0 then noProjectsHtml
  else String.join (displayedCards projects)

/-- The error banner written by `showError` (lines 276-285). -/
def errorBanner (message : String) : String :=
  "\n            <div class=\"error-message\" role=\"alert\">\n                <p style=\"text-align: center; color: #ff6b6b;\">"
    ++ escapeHtml message
    ++ "</p>\n            </div>\n        "

/-- The message passed to `showError` by `fetchGitHubData` (line 81). -/
def fetchFailureMessage : String :=
  "Failed to load GitHub data. Please try again later."

/-- A failed network read: `fetchGitHubUser` / `fetchGitHubRepos` throw
an `Error` with a message on a non-ok response or transport failure. -/
inductive NetworkError
  | failed : String → NetworkError
deriving DecidableEq

/-- The observable outcome of one `fetchGitHubData` run: the state after
the run, what (if anything) was written into the projects container, and
the stats handed to the count-up animation (if any). -/
structure FetchOutcome where
  newState : State
  rendered : Option String
  statsShown : Option Stats
deriving DecidableEq

/-- `fetchGitHubData` (lines 60-86), with the two awaited network results
passed in explicitly.  If the busy flag is set the function returns at
once.  Otherwise `Promise.all` either yields both results — then stats
are computed, `state.allProjects` is replaced and the full list rendered —
or rejects with the first failure, in which case the `catch` block shows
the error banner and `state.allProjects` is not assigned.  The `finally`
block clears the busy flag on both paths.  `state.currentFilter` is not
touched on either path. -/
def fetchGitHubData (st : State) (userRes : Except NetworkError UserData)
    (reposRes : Except NetworkError (List Repo)) : FetchOutcome :=
  if st.isLoading then
    { newState := st, rendered := none, statsShown := none }
  else
    match userRes, reposRes with
    | .ok userData, .ok reposData =>
        { newState := { st with allProjects := reposData, isLoading := false }
          rendered := some (displayProjects reposData)
          statsShown := some (updateStats userData reposData) }
    | _, _ =>
        { newState := { st with isLoading := false }
          rendered := some (errorBanner fetchFailureMessage)
          statsShown := none }

/-- The per-repository predicate of `filterProjects` (lines 233-235):
`project.language && project.language.toLowerCase().includes(filter.toLowerCase())`.
A `null` language is falsy, and so is the empty string. -/
def languageMatches (language : Option String) (filter : String) : Bool :=
  jsTruthy language && strIncludes (strToLower (jsOr language (""))) (strToLower filter)

/-- The list computed by `filterProjects` (lines 229-236): the stored
list itself for the `'all'` tag, otherwise the `Array.prototype.filter`
of the language predicate. -/
def filterList (allProjects : List Repo) (filter : String) : List Repo :=
  if filter == "all" then allProjects
  else allProjects.filter (fun project => languageMatches project.language filter)

/-- `filterProjects` (lines 219-239): records the tag in
`state.currentFilter`, leaves `state.allProjects` alone, and re-renders
the filtered list.  Returns the new state and the rendered HTML. -/
def filterProjects (st : State) (filter : String) : State × String :=
  ({ st with currentFilter := filter },
   displayProjects (filterList st.allProjects filter))

/-- A selected file as the upload handler reads it: `name`, declared MIME
`type`, byte `size`. -/
structure JsFile where
  name : String
  type : String
  size : Nat
deriving DecidableEq

/-- The pieces of page state the upload handler touches: the status
line's text and color, and the download button's `href` and `download`
attributes (the previously issued handle). -/
structure UploadUI where
  statusText : String
  statusColor : String
  href : Option String
  downloadName : Option String
deriving DecidableEq

/-- The `change` listener body of `handleResumeUpload` (lines 312-346).
`url` stands for the fresh object URL `URL.createObjectURL(file)` that
would be minted on acceptance; it is consumed only on the accept path. -/
def handleResumeUploadChange (ui : UploadUI) (file : Option JsFile)
    (url : String) : UploadUI :=
  match file with
  | none => ui
  | some f =>
    if f.type != "application/pdf" then
      { ui with statusText := "❌ Please upload a PDF file"
                statusColor := "#ff6b6b" }
    else if f.size > 5 * 1024 * 1024 then
      { ui with statusText := "❌ File size must be less than 5MB"
                statusColor := "#ff6b6b" }
    else
      { ui with href := some url
                downloadName := some f.name
                statusText := "✓ Uploaded: " ++ f.name
                statusColor := "#43e97b" }

/-! Concrete sample data used by witnesses and counterexamples. -/

/-- A repository whose language is the literal string `"Unknown"`. -/
def unknownLangRepo : Repo :=
  { name := "proj", description := some ("d"), language := some ("Unknown")
    stargazers_count := 1, forks_count := 2, html_url := "u", homepage := some ("h") }

/-- A repository whose language is present but the empty string. -/
def emptyLangRepo : Repo :=
  { name := "x", description := none, language := some ("")
    stargazers_count := 0, forks_count := 0, html_url := "u", homepage := none }

/-- A second empty-string-language repository. -/
def blankLangRepo : Repo :=
  { name := "y", description := some (""), language := some ("")
    stargazers_count := 1, forks_count := 0, html_url := "v", homepage := none }

/-- A TypeScript repository. -/
def tsRepo : Repo :=
  { name := "site", description := some ("demo"), language := some ("TypeScript")
    stargazers_count := 3, forks_count := 1, html_url := "https://g/site"
    homepage := none }

/-- A plain second repository. -/
def pyRepo : Repo :=
  { name := "tool", description := none, language := some ("Python")
    stargazers_count := 0, forks_count := 2, html_url := "https://g/tool"
    homepage := none }

/-- A third repository. -/
def cRepo : Repo :=
  { name := "lib", description := some ("c lib"), language := some ("C")
    stargazers_count := 5, forks_count := 0, html_url := "https://g/lib"
    homepage := none }

/-- A repository whose name is an HTML element. -/
def evilRepo : Repo :=
  { name := "<img src=x onerror=alert(1)>", description := none, language := none
    stargazers_count := 0, forks_count := 0
    html_url := "https://g/evil", homepage := none }

/-- An idle state with a non-default active filter. -/
def pyFilterState : State :=
  { allProjects := [pyRepo], currentFilter := "python", isLoading := false }

/-- An idle state with the default filter. -/
def idleState : State :=
  { allProjects := [tsRepo], currentFilter := "all", isLoading := false }

/-- A sample profile. -/
def sampleUser : UserData := { public_repos := 2, followers := 7 }

/-- A sample upload-UI state with a previously issued handle. -/
def sampleUI : UploadUI :=
  { statusText := "", statusColor := "", href := some ("blob:old")
    downloadName := some ("old.pdf") }

/-! Helper lemmas. -/

/-- The empty pattern is a substring of every character list. -/
theorem charListSub_nil : ∀ l : List Char, charListSub [] l = true
  | [] => rfl
  | _ :: rest => by simp [charListSub, charListPrefixOf]

/-- JS `s.includes("")` is true for every `s`. -/
theorem strIncludes_empty (s : String) : strIncludes s ("") = true := by
  have h : ("" : String).toList = [] := rfl
  simp only [strIncludes, h]
  exact charListSub_nil _

/-- Lowercasing the empty string gives the empty string. -/
theorem strToLower_empty : strToLower ("") = "" := rfl

/-- The filter predicate holds exactly on a present, non-empty language whose
lowercasing contains the lowercased tag. -/
theorem languageMatches_iff (language : Option String) (t : String) :
    languageMatches language t = true ↔
      ∃ l, language = some l ∧ l ≠ "" ∧
        strIncludes (strToLower l) (strToLower t) = true := by
  cases language with
  | none => simp [languageMatches, jsTruthy]
  | some l =>
    by_cases hl : l = ""
    · subst hl
      simp [languageMatches, jsTruthy]
    · have hbe : (l == "") = false := beq_eq_false_iff_ne.mpr hl
      simp [languageMatches, jsTruthy, jsOr, hbe, hl]

/-- A string of positive length is not the empty string. -/
theorem ne_empty_of_length_pos (s : String) (h : 0 < s.length) : s ≠ "" := by
  intro he
  subst he
  exact absurd h (by decide)

/-! C7. -/

/-- C7: `filter(L, "all") = L` — the "all" tag is the identity filter, with no
truncation or reordering. -/
theorem filterList_all_identity (L : List Repo) : filterList L ("all") = L := rfl

/-! C3. -/

/-- C3 counterexample: for the tag `""` (which differs from `"all"`), a
repository whose language is present but equal to the empty string satisfies
the claim's predicate — the lowercased language contains the lowercased tag as
a substring — yet the code excludes it, because the empty string is falsy in
the `project.language &&` guard. -/
theorem filter_empty_language_cex :
    ("" : String) ≠ "all" ∧
    emptyLangRepo.language = some ("") ∧
    strIncludes (strToLower ("")) (strToLower ("")) = true ∧
    filterList [emptyLangRepo] ("") = [] :=
  ⟨by decide, rfl, rfl, rfl⟩

/-- C3 (amended): for every tag `t ≠ "all"`, `filter(L, t)` is a subsequence
of `L` (input order preserved) whose members are exactly the repositories of
`L` with a present and non-empty language whose lowercasing contains the
lowercased tag as a substring; in particular a repository with absent language
is never in the result. -/
theorem filterList_characterization (L : List Repo) (t : String) (h : t ≠ "all") :
    (filterList L t).Sublist L ∧
    ∀ r : Repo, r ∈ filterList L t ↔
      r ∈ L ∧ ∃ l, r.language = some l ∧ l ≠ "" ∧
        strIncludes (strToLower l) (strToLower t) = true := by
  have hne : (t == "all") = false := beq_eq_false_iff_ne.mpr h
  constructor
  · simp only [filterList, hne, Bool.false_eq_true, if_false]
    exact List.filter_sublist L
  · intro r
    simp only [filterList, hne, Bool.false_eq_true, if_false, List.mem_filter]
    exact and_congr_right fun _ => languageMatches_iff r.language t

/-- C3 witness: the characterization applied to a one-element TypeScript list
and the tag "script". -/
theorem filterList_characterization_witness :
    (filterList [tsRepo] ("script")).Sublist [tsRepo] ∧
    (tsRepo ∈ filterList [tsRepo] ("script") ↔
      tsRepo ∈ [tsRepo] ∧ ∃ l, tsRepo.language = some l ∧ l ≠ "" ∧
        strIncludes (strToLower l) (strToLower ("script")) = true) :=
  ⟨(filterList_characterization [tsRepo] ("script") (by decide)).1,
   (filterList_characterization [tsRepo] ("script") (by decide)).2 tsRepo⟩

/-! C10. -/

/-- C10 counterexample: with the empty tag, a repository whose language is
present (but the empty string) is excluded, contradicting the claim that the
empty tag selects every language-bearing repository. -/
theorem empty_tag_excludes_blank_cex :
    blankLangRepo.language.isSome = true ∧
    filterList [blankLangRepo] ("") = [] :=
  ⟨rfl, rfl⟩

/-- C10 (amended): filtering with the empty-string tag returns exactly the
repositories whose language is present and non-empty (JS truthy), because
every string contains the empty string as a substring. -/
theorem empty_tag_selects_truthy_language (L : List Repo) :
    filterList L ("") = L.filter (fun r => jsTruthy r.language) := by
  have hne : (("" : String) == "all") = false := by decide
  simp only [filterList, hne, Bool.false_eq_true, if_false]
  apply List.filter_congr
  intro r _
  cases hl : r.language with
  | none => simp [languageMatches, jsTruthy]
  | some l =>
    by_cases h0 : l = ""
    · subst h0
      simp [languageMatches, jsTruthy]
    · have hbe : (l == "") = false := beq_eq_false_iff_ne.mpr h0
      simp [languageMatches, jsTruthy, jsOr, hbe, strToLower_empty, strIncludes_empty]

/-! C4. -/

/-- C4: the renderer's card sequence has exactly `min (length L) 12` cards,
and the card at each position `i < 12` is the card of the `i`-th input entry —
input order preserved, truncated at the display cap. -/
theorem displayedCards_cap (projects : List Repo) :
    (displayedCards projects).length = min projects.length CONFIG.maxProjects ∧
    ∀ i : Nat, i < CONFIG.maxProjects →
      (displayedCards projects)[i]? =
        (projects[i]?).map (fun p => createProjectCard p i) := by
  constructor
  · simp only [displayedCards, List.length_map, List.enum_length, List.length_take]
    exact Nat.min_comm _ _
  · intro i hi
    simp only [displayedCards, List.getElem?_map, List.getElem?_enum,
      List.getElem?_take, if_pos hi]
    cases projects[i]? <;> rfl

/-- C4 witness: a two-element list yields two cards, and the card at
position 1 is built from the second entry. -/
theorem displayedCards_cap_witness :
    (displayedCards [tsRepo, pyRepo]).length
        = min ([tsRepo, pyRepo] : List Repo).length CONFIG.maxProjects ∧
    1 < CONFIG.maxProjects ∧
    (displayedCards [tsRepo, pyRepo])[1]? =
      (([tsRepo, pyRepo] : List Repo)[1]?).map (fun p => createProjectCard p 1) :=
  ⟨(displayedCards_cap [tsRepo, pyRepo]).1, by decide,
   (displayedCards_cap [tsRepo, pyRepo]).2 1 (by decide)⟩

/-! C6. -/

/-- Folding the running sum of `f` over a list equals the start value plus the
sum of the mapped list. -/
theorem foldl_add_eq_sum (f : Repo → Nat) :
    ∀ (L : List Repo) (a : Nat),
      L.foldl (fun sum r => sum + f r) a = a + (L.map f).sum := by
  intro L
  induction L with
  | nil => intro a; simp
  | cons r rest ih => intro a; simp [ih, Nat.add_assoc]

/-- C6: on a successful joint fetch, the stats handed to the display are the
profile counts together with the star total and fork total summed over the
full fetched list — independent of the prior state's active filter (the prior
state is arbitrary) and of the 12-item display cap (the whole list is
summed). -/
theorem stats_over_full_list (st : State) (u : UserData) (repos : List Repo)
    (hidle : st.isLoading = false) :
    (fetchGitHubData st (.ok u) (.ok repos)).statsShown =
      some { repos := u.public_repos, followers := u.followers
             stars := (repos.map Repo.stargazers_count).sum
             forks := (repos.map Repo.forks_count).sum } := by
  simp only [fetchGitHubData, hidle, Bool.false_eq_true, if_false]
  have h1 := foldl_add_eq_sum Repo.stargazers_count repos 0
  have h2 := foldl_add_eq_sum Repo.forks_count repos 0
  simp [updateStats, h1, h2]

/-- C6 witness: star counts [3,0,5] and fork counts [1,2,0] yield star total 8
and fork total 3, from a prior state whose active filter is "python". -/
theorem stats_over_full_list_witness :
    pyFilterState.isLoading = false ∧
    (fetchGitHubData pyFilterState (.ok sampleUser)
        (.ok [tsRepo, pyRepo, cRepo])).statsShown =
      some { repos := 2, followers := 7, stars := 8, forks := 3 } := by
  refine ⟨rfl, ?_⟩
  rw [stats_over_full_list pyFilterState sampleUser [tsRepo, pyRepo, cRepo] rfl]
  rfl

/-! C2. -/

/-- C2: if either network read fails, `fetchGitHubData` renders the single
network-error banner, hands no stats to the display, and leaves the stored
repository list unchanged from its prior value — even when the other read
succeeded. -/
theorem fetch_failure_keeps_repositories
    (st : State) (userRes : Except NetworkError UserData)
    (reposRes : Except NetworkError (List Repo))
    (hidle : st.isLoading = false)
    (hfail : (∃ e, userRes = .error e) ∨ ∃ e, reposRes = .error e) :
    (fetchGitHubData st userRes reposRes).newState.allProjects = st.allProjects ∧
    (fetchGitHubData st userRes reposRes).rendered
        = some (errorBanner fetchFailureMessage) ∧
    (fetchGitHubData st userRes reposRes).statsShown = none := by
  cases userRes with
  | error e => simp [fetchGitHubData, hidle]
  | ok u =>
    cases reposRes with
    | error e => simp [fetchGitHubData, hidle]
    | ok repos =>
      rcases hfail with ⟨e, he⟩ | ⟨e, he⟩ <;> simp at he

/-- C2 witness: the repository read fails while the profile read succeeds;
the prior one-element repository list is kept and the error banner shown. -/
theorem fetch_failure_keeps_repositories_witness :
    idleState.isLoading = false ∧
    ((fetchGitHubData idleState (.ok sampleUser)
        (.error (NetworkError.failed ("Failed to fetch repositories")))).newState.allProjects
        = idleState.allProjects ∧
     (fetchGitHubData idleState (.ok sampleUser)
        (.error (NetworkError.failed ("Failed to fetch repositories")))).rendered
        = some (errorBanner fetchFailureMessage) ∧
     (fetchGitHubData idleState (.ok sampleUser)
        (.error (NetworkError.failed ("Failed to fetch repositories")))).statsShown = none) :=
  ⟨rfl, fetch_failure_keeps_repositories idleState _ _ rfl (Or.inr ⟨_, rfl⟩)⟩

/-! C9. -/

/-- C9 counterexample: from a prior state whose active filter is "python", a
successful fetch leaves the filter at "python" — the code never resets
`state.currentFilter` to "all". -/
theorem fetch_keeps_filter_cex :
    pyFilterState.currentFilter = "python" ∧
    (fetchGitHubData pyFilterState (.ok sampleUser)
        (.ok [tsRepo])).newState.currentFilter = "python" ∧
    ("python" : String) ≠ "all" :=
  ⟨rfl, rfl, by decide⟩

/-- C9 (amended): a successful fetch replaces only the stored repository list
(and clears the busy flag), leaving the active filter unchanged — though it
re-renders the full, unfiltered list; a filter selection replaces only the
active filter, leaving the repository list and busy flag unchanged. -/
theorem state_mutation_frame (st : State) (u : UserData) (repos : List Repo)
    (tag : String) (hidle : st.isLoading = false) :
    ((fetchGitHubData st (.ok u) (.ok repos)).newState.allProjects = repos ∧
     (fetchGitHubData st (.ok u) (.ok repos)).newState.currentFilter
        = st.currentFilter ∧
     (fetchGitHubData st (.ok u) (.ok repos)).rendered
        = some (displayProjects repos)) ∧
    ((filterProjects st tag).1.currentFilter = tag ∧
     (filterProjects st tag).1.allProjects = st.allProjects ∧
     (filterProjects st tag).1.isLoading = st.isLoading) := by
  simp [fetchGitHubData, filterProjects, hidle]

/-- C9 witness: the frame conditions at a concrete idle state, profile,
repository list and tag. -/
theorem state_mutation_frame_witness :
    pyFilterState.isLoading = false ∧
    (((fetchGitHubData pyFilterState (.ok sampleUser) (.ok [tsRepo])).newState.allProjects
        = [tsRepo] ∧
      (fetchGitHubData pyFilterState (.ok sampleUser) (.ok [tsRepo])).newState.currentFilter
        = pyFilterState.currentFilter ∧
      (fetchGitHubData pyFilterState (.ok sampleUser) (.ok [tsRepo])).rendered
        = some (displayProjects [tsRepo])) ∧
     ((filterProjects pyFilterState ("c")).1.currentFilter = "c" ∧
      (filterProjects pyFilterState ("c")).1.allProjects = pyFilterState.allProjects ∧
      (filterProjects pyFilterState ("c")).1.isLoading = pyFilterState.isLoading)) :=
  ⟨rfl, state_mutation_frame pyFilterState sampleUser [tsRepo] ("c") rfl⟩

/-! C5. -/

/-- A language other than the literal "Unknown" produces a non-empty badge. -/
theorem languageBadge_ne (l : String) (h : l ≠ "Unknown") : languageBadge l ≠ "" := by
  have hb : (l != "Unknown") = true := by simp [h]
  apply ne_empty_of_length_pos
  simp only [languageBadge, hb, if_true]
  simp only [String.length_append]
  have h1 : 0 < ("<span class=\"tech-badge\">").length := by decide
  omega

/-- A positive star count produces a non-empty badge. -/
theorem starsBadge_ne (n : Nat) (h : 0 < n) : starsBadge n ≠ "" := by
  apply ne_empty_of_length_pos
  simp only [starsBadge, if_pos h]
  simp only [String.length_append]
  have h1 : 0 < ("<span class=\"tech-badge\" aria-label=\"").length := by decide
  omega

/-- A positive fork count produces a non-empty badge. -/
theorem forksBadge_ne (n : Nat) (h : 0 < n) : forksBadge n ≠ "" := by
  apply ne_empty_of_length_pos
  simp only [forksBadge, if_pos h]
  simp only [String.length_append]
  have h1 : 0 < ("<span class=\"tech-badge\" aria-label=\"").length := by decide
  omega

/-- A falsy homepage produces an empty link segment. -/
theorem homepageLink_empty (r : Repo) (h : jsTruthy r.homepage = false) :
    homepageLink r = "" := by
  simp [homepageLink, h]

/-- A truthy homepage produces a non-empty link segment. -/
theorem homepageLink_ne (r : Repo) (h : jsTruthy r.homepage = true) :
    homepageLink r ≠ "" := by
  apply ne_empty_of_length_pos
  simp only [homepageLink, h, if_true]
  simp only [String.length_append]
  have h1 : 0 < ("\n                        <a href=\"").length := by decide
  omega

/-- C5 counterexample: a repository whose language is present but equal to the
literal string "Unknown" gets no language badge — the rendered card does not
contain the badge markup — contradicting "a language badge exactly when the
record's language is present". -/
theorem unknown_language_no_badge_cex :
    unknownLangRepo.language = some ("Unknown") ∧
    languageBadge (jsOr unknownLangRepo.language ("Unknown")) = "" ∧
    strIncludes (createProjectCard unknownLangRepo 0)
      ("<span class=\"tech-badge\">") = false :=
  ⟨rfl, rfl, rfl⟩

/-- C5 (amended): in the rendered card, the language-badge segment is
non-empty exactly when the language is present, non-empty and not the literal
"Unknown"; the star-count badge exactly when the star count is positive; the
fork-count badge exactly when the fork count is positive; the homepage-link
segment exactly when the homepage is present and non-empty; and the defaulted
description text is the fixed placeholder exactly when the description is
absent, empty, or itself the placeholder string. -/
theorem card_segments_iff (r : Repo) :
    (languageBadge (jsOr r.language ("Unknown")) ≠ "" ↔
      ∃ l, r.language = some l ∧ l ≠ "" ∧ l ≠ "Unknown") ∧
    (starsBadge r.stargazers_count ≠ "" ↔ 0 < r.stargazers_count) ∧
    (forksBadge r.forks_count ≠ "" ↔ 0 < r.forks_count) ∧
    (homepageLink r ≠ "" ↔ ∃ u, r.homepage = some u ∧ u ≠ "") ∧
    (jsOr r.description ("No description available") = "No description available" ↔
      r.description = none ∨ r.description = some ("") ∨
        r.description = some ("No description available")) := by
  obtain ⟨nm, ds, lg, sg, fk, hu, hp⟩ := r
  refine ⟨?_, ?_, ?_, ?_, ?_⟩
  · dsimp only
    cases lg with
    | none =>
      constructor
      · intro hbad
        exact absurd (show languageBadge (jsOr none ("Unknown")) = "" from rfl) hbad
      · rintro ⟨l, hl, -, -⟩
        exact Option.noConfusion hl
    | some l =>
      by_cases hl0 : l = ""
      · subst hl0
        constructor
        · intro hbad
          exact absurd
            (show languageBadge (jsOr (some ("")) ("Unknown")) = "" from rfl) hbad
        · rintro ⟨l2, hl2, hne, -⟩
          cases hl2
          exact (hne rfl).elim
      · by_cases hlu : l = "Unknown"
        · subst hlu
          constructor
          · intro hbad
            exact absurd
              (show languageBadge (jsOr (some ("Unknown")) ("Unknown")) = "" from rfl)
              hbad
          · rintro ⟨l2, hl2, -, hne⟩
            cases hl2
            exact (hne rfl).elim
        · have hbe : (l == "") = false := beq_eq_false_iff_ne.mpr hl0
          have hjs : jsOr (some l) ("Unknown") = l := by simp [jsOr, hbe]
          rw [hjs]
          exact iff_of_true (languageBadge_ne l hlu) ⟨l, rfl, hl0, hlu⟩
  · dsimp only
    by_cases hs : 0 < sg
    · exact iff_of_true (starsBadge_ne sg hs) hs
    · have hz : starsBadge sg = "" := by simp [starsBadge, hs]
      constructor
      · intro hbad
        exact absurd hz hbad
      · intro h0
        exact absurd h0 hs
  · dsimp only
    by_cases hf : 0 < fk
    · exact iff_of_true (forksBadge_ne fk hf) hf
    · have hz : forksBadge fk = "" := by simp [forksBadge, hf]
      constructor
      · intro hbad
        exact absurd hz hbad
      · intro h0
        exact absurd h0 hf
  · cases hp with
    | none =>
      constructor
      · intro hbad
        exact (hbad (homepageLink_empty _ rfl)).elim
      · rintro ⟨u, hl, -⟩
        exact Option.noConfusion hl
    | some u =>
      by_cases hu0 : u = ""
      · subst hu0
        constructor
        · intro hbad
          exact (hbad (homepageLink_empty _ rfl)).elim
        · rintro ⟨u2, hl2, hne⟩
          cases hl2
          exact (hne rfl).elim
      · have hbe : (u == "") = false := beq_eq_false_iff_ne.mpr hu0
        refine iff_of_true (homepageLink_ne _ ?_) ⟨u, rfl, hu0⟩
        simp [jsTruthy, hbe]
  · dsimp only
    cases ds with
    | none => simp [jsOr]
    | some d =>
      by_cases hd : d = ""
      · subst hd
        simp [jsOr]
      · have hbe : (d == "") = false := beq_eq_false_iff_ne.mpr hd
        simp [jsOr, hbe, hd]

/-! C8. -/

/-- C8: the upload handler accepts a file exactly when its declared type is
"application/pdf" and its size is at most 5 MiB — on acceptance the download
handle is rebound to the fresh object URL and the file's original name — and
on every rejection the previously issued download handle (href and download
name) is unchanged. -/
theorem upload_validation (ui : UploadUI) (f : JsFile) (url : String) :
    ((f.type = "application/pdf" ∧ f.size ≤ 5 * 1024 * 1024) →
      handleResumeUploadChange ui (some f) url =
        { ui with href := some url
                  downloadName := some f.name
                  statusText := "✓ Uploaded: " ++ f.name
                  statusColor := "#43e97b" }) ∧
    (¬(f.type = "application/pdf" ∧ f.size ≤ 5 * 1024 * 1024) →
      (handleResumeUploadChange ui (some f) url).href = ui.href ∧
      (handleResumeUploadChange ui (some f) url).downloadName = ui.downloadName) := by
  constructor
  · rintro ⟨ht, hs⟩
    have hb : (f.type != "application/pdf") = false := by simp [ht]
    have hs2 : ¬ f.size > 5 * 1024 * 1024 := by omega
    simp [handleResumeUploadChange, hb, hs2]
  · intro hrej
    by_cases ht : f.type = "application/pdf"
    · have hs : f.size > 5 * 1024 * 1024 := by
        by_contra hc
        exact hrej ⟨ht, by omega⟩
      have hb : (f.type != "application/pdf") = false := by simp [ht]
      simp [handleResumeUploadChange, hb, hs]
    · have hb : (f.type != "application/pdf") = true := by simp [ht]
      simp [handleResumeUploadChange, hb]

/-- C8 witness: a PDF of exactly 5 MiB is accepted; a PDF of 5 MiB + 1 byte
and a non-PDF are rejected with the previously issued handle unchanged. -/
theorem upload_validation_witness :
    (handleResumeUploadChange sampleUI
        (some { name := "r.pdf", type := "application/pdf", size := 5 * 1024 * 1024 })
        ("blob:new") =
      { sampleUI with href := some ("blob:new")
                      downloadName := some ("r.pdf")
                      statusText := "✓ Uploaded: r.pdf"
                      statusColor := "#43e97b" }) ∧
    ((handleResumeUploadChange sampleUI
        (some { name := "r.pdf", type := "application/pdf", size := 5 * 1024 * 1024 + 1 })
        ("blob:new")).href = sampleUI.href ∧
     (handleResumeUploadChange sampleUI
        (some { name := "r.pdf", type := "application/pdf", size := 5 * 1024 * 1024 + 1 })
        ("blob:new")).downloadName = sampleUI.downloadName) ∧
    ((handleResumeUploadChange sampleUI
        (some { name := "r.png", type := "image/png", size := 10 })
        ("blob:new")).href = sampleUI.href ∧
     (handleResumeUploadChange sampleUI
        (some { name := "r.png", type := "image/png", size := 10 })
        ("blob:new")).downloadName = sampleUI.downloadName) := by
  refine ⟨?_, ?_, ?_⟩
  · have h := (upload_validation sampleUI
      { name := "r.pdf", type := "application/pdf", size := 5 * 1024 * 1024 }
      ("blob:new")).1 ⟨rfl, by decide⟩
    rw [h]
    rfl
  · exact (upload_validation sampleUI
      { name := "r.pdf", type := "application/pdf", size := 5 * 1024 * 1024 + 1 }
      ("blob:new")).2 (by decide)
  · exact (upload_validation sampleUI
      { name := "r.png", type := "image/png", size := 10 }
      ("blob:new")).2 (by decide)

/-! C1. -/

/-- C1 (code bug): in the card rendered for a repository named
`<img src=x onerror=alert(1)>`, the name appears escaped in the visible title
span, but it is interpolated raw — angle brackets unencoded — into the
`aria-label` attribute of the repository link, so not every occurrence of the
name in the output HTML passes through `escapeHtml`. -/
theorem name_raw_in_aria_label :
    strIncludes (createProjectCard evilRepo 0)
      ("aria-label=\"View <img src=x onerror=alert(1)> on GitHub\"") = true ∧
    strIncludes (createProjectCard evilRepo 0)
      ("<span>&lt;img src=x onerror=alert(1)&gt;</span>") = true ∧
    escapeHtml evilRepo.name = "&lt;img src=x onerror=alert(1)&gt;" :=
  ⟨rfl, rfl, rfl⟩

end Portfolio
